import Mathlib

/-!
Shallow embedding of the WebGL teaching repository (`timhor/webgl-training`),
covering the pieces the specification makes claims about:

* `Mesh` (projects/thor/src/mesh.ts): interleaved vertex packing, instance
  attribute layout, `setInstanceCount`, `setInstanceProperty`, `render`;
* `Program` (projects/thor/src/program.ts and the exercise variants):
  shader compilation / program linking, typed uniform setters;
* `Camera` (projects/thor/src/camera.ts and exercises/exercise-6/src/camera.ts):
  the view-projection matrix.

The WebGL2 context is modelled as an explicit state record (`GLState`):
buffer stores hold lists of rationals (one entry per float), draw calls and
uniform uploads are recorded in traces, and enabled vertex attribute
locations are kept as a list.  Numbers are modelled by `ℚ` (the source only
performs exact arithmetic in the claims under scrutiny) and `Nat`/`Int` for
counts and attribute locations.  GPU-side outcomes that the source merely
observes (shader compile status, info logs, link status, attribute location
lookup) are supplied by oracles (`GPU`, `Program.locs`).
-/

namespace Webgl

/-- WebGL enum `gl.TRIANGLES`. -/
def GL_TRIANGLES : Nat := 4

/-- WebGL enum `gl.FLOAT`. -/
def GL_FLOAT : Nat := 5126

/-- WebGL enum `gl.VERTEX_SHADER`. -/
def GL_VERTEX_SHADER : Nat := 35633

/-- WebGL enum `gl.FRAGMENT_SHADER`. -/
def GL_FRAGMENT_SHADER : Nat := 35632

/-- `Float32Array.BYTES_PER_ELEMENT`. -/
def BYTES_PER_ELEMENT : Nat := 4

/-- gl-matrix `mat4`: a 4×4 matrix stored as 16 scalars in column-major
order (`m0` is row 0 column 0, `m1` is row 1 column 0, …, `m12`..`m14`
are the translation column). -/
@[ext] structure Mat4 where
  m0 : ℚ
  m1 : ℚ
  m2 : ℚ
  m3 : ℚ
  m4 : ℚ
  m5 : ℚ
  m6 : ℚ
  m7 : ℚ
  m8 : ℚ
  m9 : ℚ
  m10 : ℚ
  m11 : ℚ
  m12 : ℚ
  m13 : ℚ
  m14 : ℚ
  m15 : ℚ
deriving DecidableEq, Repr

/-- gl-matrix `mat4.fromScaling(out, v)`. -/
def Mat4.fromScaling (v : ℚ × ℚ × ℚ) : Mat4 :=
  ⟨v.1, 0, 0, 0, 0, v.2.1, 0, 0, 0, 0, v.2.2, 0, 0, 0, 0, 1⟩

/-- gl-matrix `mat4.fromTranslation(out, v)`. -/
def Mat4.fromTranslation (v : ℚ × ℚ × ℚ) : Mat4 :=
  ⟨1, 0, 0, 0, 0, 1, 0, 0, 0, 0, 1, 0, v.1, v.2.1, v.2.2, 1⟩

/-- gl-matrix `mat4.multiply(out, a, b)`: the matrix product `a * b`
on column-major 16-tuples, written entrywise as in the library. -/
def Mat4.multiply (a b : Mat4) : Mat4 where
  m0 := b.m0 * a.m0 + b.m1 * a.m4 + b.m2 * a.m8 + b.m3 * a.m12
  m1 := b.m0 * a.m1 + b.m1 * a.m5 + b.m2 * a.m9 + b.m3 * a.m13
  m2 := b.m0 * a.m2 + b.m1 * a.m6 + b.m2 * a.m10 + b.m3 * a.m14
  m3 := b.m0 * a.m3 + b.m1 * a.m7 + b.m2 * a.m11 + b.m3 * a.m15
  m4 := b.m4 * a.m0 + b.m5 * a.m4 + b.m6 * a.m8 + b.m7 * a.m12
  m5 := b.m4 * a.m1 + b.m5 * a.m5 + b.m6 * a.m9 + b.m7 * a.m13
  m6 := b.m4 * a.m2 + b.m5 * a.m6 + b.m6 * a.m10 + b.m7 * a.m14
  m7 := b.m4 * a.m3 + b.m5 * a.m7 + b.m6 * a.m11 + b.m7 * a.m15
  m8 := b.m8 * a.m0 + b.m9 * a.m4 + b.m10 * a.m8 + b.m11 * a.m12
  m9 := b.m8 * a.m1 + b.m9 * a.m5 + b.m10 * a.m9 + b.m11 * a.m13
  m10 := b.m8 * a.m2 + b.m9 * a.m6 + b.m10 * a.m10 + b.m11 * a.m14
  m11 := b.m8 * a.m3 + b.m9 * a.m7 + b.m10 * a.m11 + b.m11 * a.m15
  m12 := b.m12 * a.m0 + b.m13 * a.m4 + b.m14 * a.m8 + b.m15 * a.m12
  m13 := b.m12 * a.m1 + b.m13 * a.m5 + b.m14 * a.m9 + b.m15 * a.m13
  m14 := b.m12 * a.m2 + b.m13 * a.m6 + b.m14 * a.m10 + b.m15 * a.m14
  m15 := b.m12 * a.m3 + b.m13 * a.m7 + b.m14 * a.m11 + b.m15 * a.m15

/-- `Camera` (projects/thor/src/camera.ts): public `position` (vec2) and
`zoom`, plus the canvas the constructor stored (only its `width` and
`height` are read). -/
structure Camera where
  position : ℚ × ℚ
  zoom : ℚ
  canvasWidth : ℚ
  canvasHeight : ℚ
deriving DecidableEq, Repr

/-- `Camera.getViewProjectionMatrix` from projects/thor/src/camera.ts.
The method only reads the camera's fields; the unchanged camera is
returned alongside the matrix to make that explicit. -/
def Camera.getViewProjectionMatrix (c : Camera) : Mat4 × Camera :=
  let aspectRatio := c.canvasWidth / c.canvasHeight
  let screenHeight : ℚ := 2
  let screenWidth := screenHeight * aspectRatio
  let zoomedScreenHeight := screenHeight / c.zoom
  let zoomedScreenWidth := screenWidth / c.zoom
  let clipSpaceRange : ℚ := 2
  let scaleX := clipSpaceRange / zoomedScreenWidth
  let scaleY := clipSpaceRange / zoomedScreenHeight
  let scalingMatrix := Mat4.fromScaling (scaleX, scaleY, 1)
  let translationMatrix :=
    Mat4.fromTranslation (-c.position.1, -c.position.2, 0)
  let viewProjectionMatrix := Mat4.multiply scalingMatrix translationMatrix
  (viewProjectionMatrix, c)

/-- `Camera.getViewProjectionMatrix` from exercises/exercise-6/src/camera.ts
(the variant that also scales z by `clipSpaceRange / (far - near)`). -/
def Camera.getViewProjectionMatrixEx6 (c : Camera) : Mat4 × Camera :=
  let aspectRatio := c.canvasWidth / c.canvasHeight
  let screenHeight : ℚ := 2
  let screenWidth := screenHeight * aspectRatio
  let zoomedScreenWidth := screenWidth / c.zoom
  let zoomedScreenHeight := screenHeight / c.zoom
  let near : ℚ := -1
  let far : ℚ := 1
  let totalDepth := far - near
  let clipSpaceRange : ℚ := 2
  let scaleX := clipSpaceRange / zoomedScreenWidth
  let scaleY := clipSpaceRange / zoomedScreenHeight
  let scaleZ := clipSpaceRange / totalDepth
  let scalingMatrix := Mat4.fromScaling (scaleX, scaleY, scaleZ)
  let cameraMatrix := Mat4.fromTranslation (-c.position.1, -c.position.2, 0)
  let viewProjectionMatrix := Mat4.multiply scalingMatrix cameraMatrix
  (viewProjectionMatrix, c)

/-- Expected value in claim C7: a pure scaling matrix with diagonal
`(sx, 1, 1, 1)` and zero translation. -/
def pureScalingMat (sx : ℚ) : Mat4 :=
  ⟨sx, 0, 0, 0, 0, 1, 0, 0, 0, 0, 1, 0, 0, 0, 0, 1⟩

/-- `Vertex` (projects/thor/src/mesh.ts): a 3-float position and a
2-float uv. -/
structure Vertex where
  position : ℚ × ℚ × ℚ
  uv : ℚ × ℚ
deriving DecidableEq, Repr

/-- `elementsPerPosition` from mesh.ts. -/
def elementsPerPosition : Nat := 3

/-- `elementsPerUV` from mesh.ts. -/
def elementsPerUV : Nat := 2

/-- `elementsPerVertex` from mesh.ts. -/
def elementsPerVertex : Nat := elementsPerPosition + elementsPerUV

/-- `InstanceAttributeDefinition` from mesh.ts: attribute name and how many
floats per instance. -/
structure InstanceAttributeDefinition where
  name : String
  size : Nat
deriving DecidableEq, Repr

/-- `InstanceAttribute` from mesh.ts: a definition together with its
computed float offset inside one instance's block. -/
structure InstanceAttribute where
  name : String
  size : Nat
  offset : Nat
deriving DecidableEq, Repr

/-- Arguments last passed to `gl.vertexAttribPointer` for a location. -/
structure AttribPointer where
  size : Nat
  type : Nat
  normalized : Bool
  stride : Nat
  offset : Nat
deriving DecidableEq, Repr

/-- A draw call recorded in the GL trace: `gl.drawArrays` or
`gl.drawArraysInstanced`. -/
inductive DrawCmd where
  | arrays (mode first count : Nat)
  | arraysInstanced (mode first count instanceCount : Nat)
deriving DecidableEq, Repr

/-- A uniform upload recorded in the GL trace. -/
inductive UniformCmd where
  | u1i (loc : Nat) (value : Int)
  | u1f (loc : Nat) (value : ℚ)
  | u3fv (loc : Nat) (value : ℚ × ℚ × ℚ)
  | uMat4 (loc : Nat) (value : Mat4)
deriving DecidableEq, Repr

/-- The observable state of the WebGL2 context used by the sources:
buffer handles and their float stores, the `ARRAY_BUFFER` binding,
the current program, enabled vertex attribute locations, last pointer
and divisor configuration per location, and traces of draw calls and
uniform uploads. -/
structure GLState where
  nextBufferId : Nat
  boundArrayBuffer : Option Nat
  currentProgram : Option Nat
  bufferContents : Nat → List ℚ
  enabledAttribs : List Int
  attribPointers : Int → Option AttribPointer
  attribDivisors : Int → Nat
  draws : List DrawCmd
  uniformCalls : List UniformCmd

/-- `gl.createBuffer()`: allocates a fresh buffer handle with an empty
data store (creation failure, which the sources guard with a throw, does
not occur in this model of a healthy context). -/
def GLState.createBuffer (s : GLState) : Nat × GLState :=
  (s.nextBufferId,
   { s with
     nextBufferId := s.nextBufferId + 1,
     bufferContents := fun b =>
       if b = s.nextBufferId then [] else s.bufferContents b })

/-- `gl.bindBuffer(gl.ARRAY_BUFFER, b)`. -/
def GLState.bindArrayBuffer (s : GLState) (b : Option Nat) : GLState :=
  { s with boundArrayBuffer := b }

/-- `gl.bufferData(gl.ARRAY_BUFFER, data, usage)`: replaces the data store
of the currently bound buffer (no-op GL error when nothing is bound). -/
def GLState.bufferData (s : GLState) (data : List ℚ) : GLState :=
  match s.boundArrayBuffer with
  | none => s
  | some b =>
    { s with
      bufferContents := fun c =>
        if c = b then data else s.bufferContents c }

/-- Overwrite `d.length` floats of `l` starting at float position `pos`;
per the WebGL `bufferSubData` contract the write is all-or-nothing: a
range falling outside the store raises `INVALID_VALUE` and writes
nothing. -/
def writeFloats (l : List ℚ) (pos : Nat) (d : List ℚ) : List ℚ :=
  if pos + d.length ≤ l.length then
    l.take pos ++ d ++ l.drop (pos + d.length)
  else l

/-- `gl.bufferSubData(gl.ARRAY_BUFFER, byteOffset, data)` on the currently
bound buffer. -/
def GLState.bufferSubData (s : GLState) (byteOffset : Nat) (data : List ℚ) :
    GLState :=
  match s.boundArrayBuffer with
  | none => s
  | some b =>
    { s with
      bufferContents := fun c =>
        if c = b then
          writeFloats (s.bufferContents b) (byteOffset / BYTES_PER_ELEMENT)
            data
        else s.bufferContents c }

/-- `gl.enableVertexAttribArray(loc)`: adds a (non-negative) location to
the enabled set; a negative location raises a GL error and is a no-op. -/
def GLState.enableVertexAttribArray (s : GLState) (loc : Int) : GLState :=
  if loc < 0 then s
  else if loc ∈ s.enabledAttribs then s
  else { s with enabledAttribs := s.enabledAttribs ++ [loc] }

/-- `gl.disableVertexAttribArray(loc)`. -/
def GLState.disableVertexAttribArray (s : GLState) (loc : Int) : GLState :=
  if loc < 0 then s
  else { s with enabledAttribs := s.enabledAttribs.filter (fun l => l ≠ loc) }

/-- `gl.vertexAttribPointer(loc, size, type, normalized, stride, offset)`. -/
def GLState.vertexAttribPointer (s : GLState) (loc : Int)
    (size type : Nat) (normalized : Bool) (stride offset : Nat) : GLState :=
  if loc < 0 then s
  else
    { s with
      attribPointers := fun l =>
        if l = loc then some ⟨size, type, normalized, stride, offset⟩
        else s.attribPointers l }

/-- `gl.vertexAttribDivisor(loc, d)`. -/
def GLState.vertexAttribDivisor (s : GLState) (loc : Int) (d : Nat) :
    GLState :=
  if loc < 0 then s
  else
    { s with
      attribDivisors := fun l =>
        if l = loc then d else s.attribDivisors l }

/-- `gl.useProgram(p)`. -/
def GLState.useProgram (s : GLState) (p : Option Nat) : GLState :=
  { s with currentProgram := p }

/-- `gl.drawArrays(mode, first, count)`. -/
def GLState.drawArrays (s : GLState) (mode first count : Nat) : GLState :=
  { s with draws := s.draws ++ [DrawCmd.arrays mode first count] }

/-- `gl.drawArraysInstanced(mode, first, count, instanceCount)`. -/
def GLState.drawArraysInstanced (s : GLState)
    (mode first count instanceCount : Nat) : GLState :=
  { s with
    draws := s.draws ++ [DrawCmd.arraysInstanced mode first count
      instanceCount] }

/-- `gl.uniform1i(loc, v)`. -/
def GLState.uniform1i (s : GLState) (loc : Nat) (v : Int) : GLState :=
  { s with uniformCalls := s.uniformCalls ++ [UniformCmd.u1i loc v] }

/-- `gl.uniform1f(loc, v)`. -/
def GLState.uniform1f (s : GLState) (loc : Nat) (v : ℚ) : GLState :=
  { s with uniformCalls := s.uniformCalls ++ [UniformCmd.u1f loc v] }

/-- `gl.uniform3fv(loc, v)`. -/
def GLState.uniform3fv (s : GLState) (loc : Nat) (v : ℚ × ℚ × ℚ) : GLState :=
  { s with uniformCalls := s.uniformCalls ++ [UniformCmd.u3fv loc v] }

/-- `gl.uniformMatrix4fv(loc, false, v)`. -/
def GLState.uniformMatrix4fv (s : GLState) (loc : Nat) (v : Mat4) : GLState :=
  { s with uniformCalls := s.uniformCalls ++ [UniformCmd.uMat4 loc v] }

/-- A freshly created WebGL2 context: nothing bound, nothing enabled,
empty traces. -/
def initialGL : GLState :=
  ⟨0, none, none, fun _ => [], [], fun _ => none, fun _ => 0, [], []⟩

/-- The insertion-ordered `Map<string, InstanceAttribute>`: `Map.set`
replaces the value in place when the key exists, otherwise appends. -/
def mapSet (m : List (String × InstanceAttribute)) (k : String)
    (v : InstanceAttribute) : List (String × InstanceAttribute) :=
  match m with
  | [] => [(k, v)]
  | (k₁, v₁) :: rest =>
    if k₁ = k then (k, v) :: rest else (k₁, v₁) :: mapSet rest k v

/-- `Map.get`: first matching key, if any. -/
def mapGet (m : List (String × InstanceAttribute)) (k : String) :
    Option InstanceAttribute :=
  match m with
  | [] => none
  | (k₁, v₁) :: rest => if k₁ = k then some v₁ else mapGet rest k

/-- The instance-attribute layout loop of the `Mesh` constructor: running
offset and running total size both start at 0 and each definition is
`Map.set` into the layout with the current offset before both counters
grow by its size.  Returns (layout, final offset, `instanceAttributeSize`). -/
def layoutAux : List InstanceAttributeDefinition →
    List (String × InstanceAttribute) → Nat → Nat →
    List (String × InstanceAttribute) × Nat × Nat
  | [], m, offset, total => (m, offset, total)
  | attr :: rest, m, offset, total =>
    layoutAux rest (mapSet m attr.name ⟨attr.name, attr.size, offset⟩)
      (offset + attr.size) (total + attr.size)

/-- Consecutive `List.set` writes: store the elements of `d` at positions
`p, p+1, …` of `arr`.  One constructor-loop iteration is `setSeq` of the
five vertex components. -/
def setSeq (arr : List ℚ) (p : Nat) : List ℚ → List ℚ
  | [] => arr
  | x :: xs => setSeq (arr.set p x) (p + 1) xs

/-- The vertex-flattening loop of the `Mesh` constructor: iteration `i`
writes vertex `i`'s x, y, z, u, v into slots
`i * elementsPerVertex .. i * elementsPerVertex + 4` of the array. -/
def flattenVertexLoop : List Vertex → Nat → List ℚ → List ℚ
  | [], _, arr => arr
  | v :: rest, i, arr =>
    flattenVertexLoop rest (i + 1)
      (((((arr.set (i * elementsPerVertex) v.position.1).set
              (i * elementsPerVertex + 1) v.position.2.1).set
              (i * elementsPerVertex + 2) v.position.2.2).set
              (i * elementsPerVertex + 3) v.uv.1).set
              (i * elementsPerVertex + 4) v.uv.2)

/-- `new Float32Array(vertices.length * elementsPerVertex)` filled by the
constructor's loop. -/
def mkVertexData (vertices : List Vertex) : List ℚ :=
  flattenVertexLoop vertices 0
    (List.replicate (vertices.length * elementsPerVertex) 0)

/-- Expected flat layout in claim C1, written in the spec's words: the
vertices in insertion order, each contributing x, y, z, u, v. -/
def specInterleave : List Vertex → List ℚ
  | [] => []
  | v :: rest =>
    v.position.1 :: v.position.2.1 :: v.position.2.2 ::
      v.uv.1 :: v.uv.2 :: specInterleave rest

/-- `Mesh` (projects/thor/src/mesh.ts): buffer handles, current instance
count, the instance-attribute layout and its total per-instance float
count, and the vertex count. -/
structure Mesh where
  buffer : Nat
  instanceBuffer : Nat
  instanceCount : Nat
  instanceAttributes : List (String × InstanceAttribute)
  instanceAttributeSize : Nat
  vertexCount : Nat
deriving Repr

/-- The `Mesh` constructor: creates the vertex and instance buffers,
computes the instance-attribute layout, flattens the vertices and uploads
them to the vertex buffer. -/
def Mesh.create (s : GLState) (vertices : List Vertex)
    (instanceAttributeDefinition : List InstanceAttributeDefinition) :
    Mesh × GLState :=
  let buffer := s.createBuffer.1
  let s₁ := s.createBuffer.2
  let instanceBuffer := s₁.createBuffer.1
  let s₂ := s₁.createBuffer.2
  let layout := layoutAux instanceAttributeDefinition [] 0 0
  let instanceAttributes := layout.1
  let instanceAttributeSize := layout.2.2
  let vertexCount := vertices.length
  let s₃ := s₂.bindArrayBuffer (some buffer)
  let vertexData := mkVertexData vertices
  let s₄ := s₃.bufferData vertexData
  let s₅ := s₄.bindArrayBuffer none
  (⟨buffer, instanceBuffer, 0, instanceAttributes, instanceAttributeSize,
    vertexCount⟩, s₅)

/-- `Mesh.setInstanceCount(n)`: stores the new count and replaces the
instance buffer's data store with `n * instanceAttributeSize` zero
floats. -/
def Mesh.setInstanceCount (m : Mesh) (instanceCount : Nat) (s : GLState) :
    Mesh × GLState :=
  let m₁ := { m with instanceCount := instanceCount }
  let s₁ := s.bindArrayBuffer (some m.instanceBuffer)
  let instanceData :=
    List.replicate (instanceCount * m.instanceAttributeSize) (0 : ℚ)
  let s₂ := s₁.bufferData instanceData
  let s₃ := s₂.bindArrayBuffer none
  (m₁, s₃)

/-- `Mesh.setInstanceProperty(index, name, data)`: throws when the name is
not in the layout; otherwise writes `data` at byte offset
`(index * instanceAttributeSize + attribute.offset) * BYTES_PER_ELEMENT`
of the instance buffer. -/
def Mesh.setInstanceProperty (m : Mesh) (index : Nat) (name : String)
    (data : List ℚ) (s : GLState) : Except String (Mesh × GLState) :=
  match mapGet m.instanceAttributes name with
  | none => Except.error ("Attribute " ++ name ++ " not found")
  | some attrib =>
    let s₁ := s.bindArrayBuffer (some m.instanceBuffer)
    let s₂ := s₁.bufferSubData
      ((index * m.instanceAttributeSize + attrib.offset) *
        BYTES_PER_ELEMENT) data
    let s₃ := s₂.bindArrayBuffer none
    Except.ok (m, s₃)

/-- `Program` (projects/thor/src/program.ts): the linked program handle,
together with the context's attribute-location table for this program
(`gl.getAttribLocation(this.program, name)`). -/
structure Program where
  program : Nat
  locs : String → Int

/-- `Program.use()`. -/
def Program.use (p : Program) (s : GLState) : GLState :=
  s.useProgram (some p.program)

/-- `Program.getAttribLocation(name)`. -/
def Program.getAttribLocation (p : Program) (name : String) : Int :=
  p.locs name

/-- The body of the `for (const [name, attribute] of this.instanceAttributes)`
loop in `Mesh.render`: enable the attribute's location, configure its
pointer with stride `instanceAttributeSize * BYTES_PER_ELEMENT` and offset
`attribute.offset * BYTES_PER_ELEMENT`, and make it per-instance. -/
def renderAttribStep (program : Program) (instanceAttributeSize : Nat)
    (st : GLState) (a : String × InstanceAttribute) : GLState :=
  let attributeLocation := program.getAttribLocation a.1
  ((st.enableVertexAttribArray attributeLocation).vertexAttribPointer
      attributeLocation a.2.size GL_FLOAT false
      (instanceAttributeSize * BYTES_PER_ELEMENT)
      (a.2.offset * BYTES_PER_ELEMENT)).vertexAttribDivisor
    attributeLocation 1

/-- The `for (const [name, attribute] of this.instanceAttributes)` loop of
`Mesh.render`, folding `renderAttribStep` over the layout in insertion
order. -/
def renderAttribLoop (program : Program) (instanceAttributeSize : Nat)
    (attrs : List (String × InstanceAttribute)) (s : GLState) : GLState :=
  attrs.foldl (renderAttribStep program instanceAttributeSize) s

/-- `Mesh.render(program, positionVariableName, uvAttributeName)` from
projects/thor/src/mesh.ts, statement by statement. -/
def Mesh.render (m : Mesh) (program : Program)
    (positionVariableName uvAttributeName : String) (s : GLState) :
    Mesh × GLState :=
  let s₁ := program.use s
  let positionAttributeLocation :=
    program.getAttribLocation positionVariableName
  let uvAttributeLocation := program.getAttribLocation uvAttributeName
  let s₂ := s₁.enableVertexAttribArray positionAttributeLocation
  let s₃ := s₂.enableVertexAttribArray uvAttributeLocation
  let s₄ := s₃.bindArrayBuffer (some m.buffer)
  let s₅ := s₄.vertexAttribPointer positionAttributeLocation
    elementsPerPosition GL_FLOAT false
    (elementsPerVertex * BYTES_PER_ELEMENT) 0
  let s₆ := s₅.vertexAttribPointer uvAttributeLocation elementsPerUV
    GL_FLOAT false (elementsPerVertex * BYTES_PER_ELEMENT)
    (elementsPerPosition * BYTES_PER_ELEMENT)
  let s₇ := s₆.bindArrayBuffer (some m.instanceBuffer)
  let s₈ := renderAttribLoop program m.instanceAttributeSize
    m.instanceAttributes s₇
  let s₉ := s₈.bindArrayBuffer none
  let s₁₀ := s₉.drawArraysInstanced GL_TRIANGLES 0 m.vertexCount
    m.instanceCount
  let s₁₁ := s₁₀.disableVertexAttribArray positionAttributeLocation
  let s₁₂ := s₁₁.disableVertexAttribArray uvAttributeLocation
  let s₁₃ := s₁₂.bindArrayBuffer none
  let s₁₄ := s₁₃.useProgram none
  (m, s₁₄)

/-- Oracle for the GPU-side outcomes `Program` construction observes:
compile status and info log per (shader type, source), link status and
info log per source pair, the handle of a successfully linked program, and
its attribute-location table. -/
structure GPU where
  compileOk : Nat → String → Bool
  shaderInfoLog : Nat → String → String
  linkOk : String → String → Bool
  programInfoLog : String → String → String
  programHandle : String → String → Nat
  attribLoc : String → Int

/-- A compiled shader: its type and source (all later GPU queries are
keyed on these). -/
structure GLShader where
  type : Nat
  source : String

/-- `Program.compileShader(type, source)`: throws with the shader info log
when `COMPILE_STATUS` is false. -/
def compileShader (gpu : GPU) (type : Nat) (source : String) :
    Except String GLShader :=
  if gpu.compileOk type source then Except.ok ⟨type, source⟩
  else
    Except.error
      ("Failed to compile " ++ toString type ++ " shader: " ++
        gpu.shaderInfoLog type source)

/-- `Program.createProgram(vertexShader, fragmentShader)`: throws with the
program info log when `LINK_STATUS` is false. -/
def createProgramGL (gpu : GPU) (vertexShader fragmentShader : GLShader) :
    Except String Nat :=
  if gpu.linkOk vertexShader.source fragmentShader.source then
    Except.ok (gpu.programHandle vertexShader.source fragmentShader.source)
  else
    Except.error
      ("Failed to link program: " ++
        gpu.programInfoLog vertexShader.source fragmentShader.source)

/-- The `Program` constructor: compile the vertex shader, compile the
fragment shader, link; any throw propagates. -/
def Program.create (gpu : GPU) (vertexShaderSource fragmentShaderSource :
    String) : Except String Program :=
  match compileShader gpu GL_VERTEX_SHADER vertexShaderSource with
  | Except.error e => Except.error e
  | Except.ok vertexShader =>
    match compileShader gpu GL_FRAGMENT_SHADER fragmentShaderSource with
    | Except.error e => Except.error e
    | Except.ok fragmentShader =>
      match createProgramGL gpu vertexShader fragmentShader with
      | Except.error e => Except.error e
      | Except.ok program => Except.ok ⟨program, gpu.attribLoc⟩

/-- `Program.setUniform1i(location, value)`: throw on a null location,
else bind the program, upload, unbind. -/
def Program.setUniform1i (p : Program) (location : Option Nat)
    (value : Int) (s : GLState) : Except String GLState :=
  match location with
  | none => Except.error "Uniform location is null"
  | some loc =>
    let s₁ := p.use s
    let s₂ := s₁.uniform1i loc value
    let s₃ := s₂.useProgram none
    Except.ok s₃

/-- `Program.setUniform1f(location, value)`. -/
def Program.setUniform1f (p : Program) (location : Option Nat)
    (value : ℚ) (s : GLState) : Except String GLState :=
  match location with
  | none => Except.error "Uniform location is null"
  | some loc =>
    let s₁ := p.use s
    let s₂ := s₁.uniform1f loc value
    let s₃ := s₂.useProgram none
    Except.ok s₃

/-- `Program.setUniform3fv(location, value)`. -/
def Program.setUniform3fv (p : Program) (location : Option Nat)
    (value : ℚ × ℚ × ℚ) (s : GLState) : Except String GLState :=
  match location with
  | none => Except.error "Uniform location is null"
  | some loc =>
    let s₁ := p.use s
    let s₂ := s₁.uniform3fv loc value
    let s₃ := s₂.useProgram none
    Except.ok s₃

/-- `Program.setUniformMat4(location, value)`. -/
def Program.setUniformMat4 (p : Program) (location : Option Nat)
    (value : Mat4) (s : GLState) : Except String GLState :=
  match location with
  | none => Except.error "Uniform location is null"
  | some loc =>
    let s₁ := p.use s
    let s₂ := s₁.uniformMatrix4fv loc value
    let s₃ := s₂.useProgram none
    Except.ok s₃

/-- Names of a list of instance attribute definitions, in declaration
order. -/
def defNames (defs : List InstanceAttributeDefinition) : List String :=
  defs.map (fun d => d.name)

/-- Expected layout in claim C2, in the spec's words: the k-th declared
attribute keeps its name and size and is assigned the running offset. -/
def specLayout (offset : Nat) : List InstanceAttributeDefinition →
    List (String × InstanceAttribute)
  | [] => []
  | d :: rest =>
    (d.name, ⟨d.name, d.size, offset⟩) :: specLayout (offset + d.size) rest

/-- The three vertices of the thor triangle, with uvs. -/
def demoVertices : List Vertex :=
  [⟨(0, 1/2, 0), (0, 0)⟩, ⟨(-1/2, -1/2, 0), (0, 1)⟩,
   ⟨(1/2, -1/2, 0), (1, 0)⟩]

/-- Two instance attribute declarations: a 2-float offset and a 3-float
colour, as in the thor quad object. -/
def demoDefs : List InstanceAttributeDefinition :=
  [⟨"aOffset", 2⟩, ⟨"aColour", 3⟩]

/-- Attribute locations of a linked demo program. -/
def demoLocs : String → Int := fun n =>
  if n = "aPosition" then 0
  else if n = "aUv" then 1
  else if n = "aOffset" then 2
  else if n = "aColour" then 3
  else -1

/-- A linked demo program with handle 1. -/
def demoProgram : Program := ⟨1, demoLocs⟩

/-- A camera over a 4×3 canvas at zoom 1, position (0, 0). -/
def demoCamera : Camera := ⟨(0, 0), 1, 4, 3⟩

/-- A GPU on which both shaders compile and the program links. -/
def demoGPUok : GPU :=
  ⟨fun _ _ => true, fun _ _ => "", fun _ _ => true, fun _ _ => "",
   fun _ _ => 7, fun _ => 0⟩

/-- A GPU on which vertex shaders fail to compile. -/
def demoGPUvertexFail : GPU :=
  ⟨fun t _ => t != GL_VERTEX_SHADER, fun _ _ => "bad vertex shader",
   fun _ _ => true, fun _ _ => "", fun _ _ => 7, fun _ => 0⟩

/-- Constructing the demo mesh with no instance attributes on a fresh
context. -/
def demoCreateNoInst : Mesh × GLState := Mesh.create initialGL demoVertices []

/-- Constructing the demo mesh with the two demo instance attributes on a
fresh context. -/
def demoCreateInst : Mesh × GLState :=
  Mesh.create initialGL demoVertices demoDefs

/-- The context after sizing the demo instance buffer for two instances
(2 × 5 = 10 zero floats). -/
def demoState2 : GLState :=
  (demoCreateInst.1.setInstanceCount 2 demoCreateInst.2).2

/-- Instance-buffer contents of a successful `setInstanceProperty` result
(empty list on the error branch). -/
def okBufferAt (r : Except String (Mesh × GLState)) (b : Nat) : List ℚ :=
  match r with
  | Except.ok (_, st) => st.bufferContents b
  | Except.error _ => []

/-!  Helper lemmas about the GL state operations.  -/

@[simp] theorem draws_bindArrayBuffer (s : GLState) (b : Option Nat) :
    (s.bindArrayBuffer b).draws = s.draws := rfl

@[simp] theorem draws_useProgram (s : GLState) (p : Option Nat) :
    (s.useProgram p).draws = s.draws := rfl

@[simp] theorem draws_enable (s : GLState) (loc : Int) :
    (s.enableVertexAttribArray loc).draws = s.draws := by
  simp only [GLState.enableVertexAttribArray]; split_ifs <;> rfl

@[simp] theorem draws_disable (s : GLState) (loc : Int) :
    (s.disableVertexAttribArray loc).draws = s.draws := by
  simp only [GLState.disableVertexAttribArray]; split_ifs <;> rfl

@[simp] theorem draws_pointer (s : GLState) (loc : Int) (size type : Nat)
    (normalized : Bool) (stride offset : Nat) :
    (s.vertexAttribPointer loc size type normalized stride offset).draws =
      s.draws := by
  simp only [GLState.vertexAttribPointer]; split_ifs <;> rfl

@[simp] theorem draws_divisor (s : GLState) (loc : Int) (d : Nat) :
    (s.vertexAttribDivisor loc d).draws = s.draws := by
  simp only [GLState.vertexAttribDivisor]; split_ifs <;> rfl

@[simp] theorem enabled_bindArrayBuffer (s : GLState) (b : Option Nat) :
    (s.bindArrayBuffer b).enabledAttribs = s.enabledAttribs := rfl

@[simp] theorem enabled_useProgram (s : GLState) (p : Option Nat) :
    (s.useProgram p).enabledAttribs = s.enabledAttribs := rfl

@[simp] theorem enabled_pointer (s : GLState) (loc : Int) (size type : Nat)
    (normalized : Bool) (stride offset : Nat) :
    (s.vertexAttribPointer loc size type normalized stride
      offset).enabledAttribs = s.enabledAttribs := by
  simp only [GLState.vertexAttribPointer]; split_ifs <;> rfl

@[simp] theorem enabled_divisor (s : GLState) (loc : Int) (d : Nat) :
    (s.vertexAttribDivisor loc d).enabledAttribs = s.enabledAttribs := by
  simp only [GLState.vertexAttribDivisor]; split_ifs <;> rfl

@[simp] theorem enabled_draw_instanced (s : GLState)
    (mode first count instanceCount : Nat) :
    (s.drawArraysInstanced mode first count instanceCount).enabledAttribs =
      s.enabledAttribs := rfl

@[simp] theorem bound_enable (s : GLState) (loc : Int) :
    (s.enableVertexAttribArray loc).boundArrayBuffer =
      s.boundArrayBuffer := by
  simp only [GLState.enableVertexAttribArray]; split_ifs <;> rfl

@[simp] theorem bound_disable (s : GLState) (loc : Int) :
    (s.disableVertexAttribArray loc).boundArrayBuffer =
      s.boundArrayBuffer := by
  simp only [GLState.disableVertexAttribArray]; split_ifs <;> rfl

@[simp] theorem bound_pointer (s : GLState) (loc : Int) (size type : Nat)
    (normalized : Bool) (stride offset : Nat) :
    (s.vertexAttribPointer loc size type normalized stride
      offset).boundArrayBuffer = s.boundArrayBuffer := by
  simp only [GLState.vertexAttribPointer]; split_ifs <;> rfl

@[simp] theorem bound_divisor (s : GLState) (loc : Int) (d : Nat) :
    (s.vertexAttribDivisor loc d).boundArrayBuffer = s.boundArrayBuffer := by
  simp only [GLState.vertexAttribDivisor]; split_ifs <;> rfl

@[simp] theorem contents_enable (s : GLState) (loc : Int) :
    (s.enableVertexAttribArray loc).bufferContents = s.bufferContents := by
  simp only [GLState.enableVertexAttribArray]; split_ifs <;> rfl

@[simp] theorem contents_disable (s : GLState) (loc : Int) :
    (s.disableVertexAttribArray loc).bufferContents = s.bufferContents := by
  simp only [GLState.disableVertexAttribArray]; split_ifs <;> rfl

@[simp] theorem contents_pointer (s : GLState) (loc : Int) (size type : Nat)
    (normalized : Bool) (stride offset : Nat) :
    (s.vertexAttribPointer loc size type normalized stride
      offset).bufferContents = s.bufferContents := by
  simp only [GLState.vertexAttribPointer]; split_ifs <;> rfl

@[simp] theorem contents_divisor (s : GLState) (loc : Int) (d : Nat) :
    (s.vertexAttribDivisor loc d).bufferContents = s.bufferContents := by
  simp only [GLState.vertexAttribDivisor]; split_ifs <;> rfl

@[simp] theorem contents_bindArrayBuffer (s : GLState) (b : Option Nat) :
    (s.bindArrayBuffer b).bufferContents = s.bufferContents := rfl

@[simp] theorem contents_useProgram (s : GLState) (p : Option Nat) :
    (s.useProgram p).bufferContents = s.bufferContents := rfl

/-- C4: for every mesh and every instance count n, `setInstanceCount(n)`
stores n on the mesh and replaces the instance buffer's data store with
exactly `n * instanceAttributeSize` floats, all zero, discarding whatever
was there before. -/
theorem setInstanceCount_reallocates_zeroed (m : Mesh) (n : Nat)
    (s : GLState) :
    (m.setInstanceCount n s).1 = { m with instanceCount := n } ∧
    ((m.setInstanceCount n s).2).bufferContents m.instanceBuffer =
      List.replicate (n * m.instanceAttributeSize) 0 := by
  refine ⟨rfl, ?_⟩
  simp [Mesh.setInstanceCount, GLState.bindArrayBuffer, GLState.bufferData]

/-- C9: each typed uniform setter throws (touching no GL state) exactly
when the location is null; on a non-null location it binds the program,
records exactly one uniform upload, and leaves the current program
cleared, all other state untouched. -/
theorem uniform_setters_guard_and_unbind (p : Program) (s : GLState)
    (l : Nat) (i : Int) (q : ℚ) (v : ℚ × ℚ × ℚ) (mv : Mat4) :
    p.setUniform1i none i s = Except.error "Uniform location is null" ∧
    p.setUniform1i (some l) i s = Except.ok
      { s with
        currentProgram := none,
        uniformCalls := s.uniformCalls ++ [UniformCmd.u1i l i] } ∧
    p.setUniform1f none q s = Except.error "Uniform location is null" ∧
    p.setUniform1f (some l) q s = Except.ok
      { s with
        currentProgram := none,
        uniformCalls := s.uniformCalls ++ [UniformCmd.u1f l q] } ∧
    p.setUniform3fv none v s = Except.error "Uniform location is null" ∧
    p.setUniform3fv (some l) v s = Except.ok
      { s with
        currentProgram := none,
        uniformCalls := s.uniformCalls ++ [UniformCmd.u3fv l v] } ∧
    p.setUniformMat4 none mv s = Except.error "Uniform location is null" ∧
    p.setUniformMat4 (some l) mv s = Except.ok
      { s with
        currentProgram := none,
        uniformCalls := s.uniformCalls ++ [UniformCmd.uMat4 l mv] } :=
  ⟨rfl, rfl, rfl, rfl, rfl, rfl, rfl, rfl⟩

/-- C8: `Program` construction throws exactly when a shader fails to
compile or the program fails to link, the thrown message carries the
GPU-provided info log of the failing step, and on success it returns a
`Program` holding the linked program object. -/
theorem program_create_compile_link (gpu : GPU) (vsrc fsrc : String) :
    (gpu.compileOk GL_VERTEX_SHADER vsrc = false →
      Program.create gpu vsrc fsrc = Except.error
        ("Failed to compile " ++ toString GL_VERTEX_SHADER ++ " shader: " ++
          gpu.shaderInfoLog GL_VERTEX_SHADER vsrc)) ∧
    (gpu.compileOk GL_VERTEX_SHADER vsrc = true →
      gpu.compileOk GL_FRAGMENT_SHADER fsrc = false →
      Program.create gpu vsrc fsrc = Except.error
        ("Failed to compile " ++ toString GL_FRAGMENT_SHADER ++
          " shader: " ++ gpu.shaderInfoLog GL_FRAGMENT_SHADER fsrc)) ∧
    (gpu.compileOk GL_VERTEX_SHADER vsrc = true →
      gpu.compileOk GL_FRAGMENT_SHADER fsrc = true →
      gpu.linkOk vsrc fsrc = false →
      Program.create gpu vsrc fsrc = Except.error
        ("Failed to link program: " ++ gpu.programInfoLog vsrc fsrc)) ∧
    (gpu.compileOk GL_VERTEX_SHADER vsrc = true →
      gpu.compileOk GL_FRAGMENT_SHADER fsrc = true →
      gpu.linkOk vsrc fsrc = true →
      Program.create gpu vsrc fsrc =
        Except.ok ⟨gpu.programHandle vsrc fsrc, gpu.attribLoc⟩) ∧
    ((Program.create gpu vsrc fsrc).isOk = true ↔
      gpu.compileOk GL_VERTEX_SHADER vsrc = true ∧
      gpu.compileOk GL_FRAGMENT_SHADER fsrc = true ∧
      gpu.linkOk vsrc fsrc = true) := by
  refine ⟨?_, ?_, ?_, ?_, ?_⟩
  · intro h₁
    simp [Program.create, compileShader, h₁]
  · intro h₁ h₂
    simp [Program.create, compileShader, h₁, h₂]
  · intro h₁ h₂ h₃
    simp [Program.create, compileShader, createProgramGL, h₁, h₂, h₃]
  · intro h₁ h₂ h₃
    simp [Program.create, compileShader, createProgramGL, h₁, h₂, h₃]
  · cases h₁ : gpu.compileOk GL_VERTEX_SHADER vsrc <;>
      cases h₂ : gpu.compileOk GL_FRAGMENT_SHADER fsrc <;>
      cases h₃ : gpu.linkOk vsrc fsrc <;>
      simp [Program.create, compileShader, createProgramGL, h₁, h₂, h₃,
        Except.isOk, Except.toBool]

/-- Witness for C8: on a healthy GPU the demo construction succeeds with
the linked handle; on a GPU whose vertex compile fails, construction
throws with the vertex info log in the message. -/
theorem program_create_compile_link_witness :
    Program.create demoGPUok "v" "f" =
      Except.ok ⟨demoGPUok.programHandle "v" "f", demoGPUok.attribLoc⟩ ∧
    Program.create demoGPUvertexFail "v" "f" = Except.error
      ("Failed to compile " ++ toString GL_VERTEX_SHADER ++ " shader: " ++
        demoGPUvertexFail.shaderInfoLog GL_VERTEX_SHADER "v") := by
  constructor
  · exact (program_create_compile_link demoGPUok "v" "f").2.2.2.1 rfl rfl rfl
  · exact (program_create_compile_link demoGPUvertexFail "v" "f").1 (by decide)

theorem mem_enable_self (s : GLState) (loc : Int) (h : 0 ≤ loc) :
    loc ∈ (s.enableVertexAttribArray loc).enabledAttribs := by
  simp only [GLState.enableVertexAttribArray]
  split_ifs with h₁ h₂
  · omega
  · exact h₂
  · simp

theorem mem_enable_of_mem (s : GLState) (loc x : Int)
    (h : x ∈ s.enabledAttribs) :
    x ∈ (s.enableVertexAttribArray loc).enabledAttribs := by
  simp only [GLState.enableVertexAttribArray]
  split_ifs <;> simp [h]

theorem not_mem_disable_self (s : GLState) (loc : Int) (h : 0 ≤ loc) :
    loc ∉ (s.disableVertexAttribArray loc).enabledAttribs := by
  simp only [GLState.disableVertexAttribArray]
  split_ifs with h₁
  · omega
  · simp [List.mem_filter]

theorem not_mem_disable_of_not_mem (s : GLState) (loc x : Int)
    (h : x ∉ s.enabledAttribs) :
    x ∉ (s.disableVertexAttribArray loc).enabledAttribs := by
  simp only [GLState.disableVertexAttribArray]
  split_ifs with h₁
  · exact h
  · intro hx
    exact h (List.mem_filter.1 hx).1

theorem mem_disable_of_mem_ne (s : GLState) (loc x : Int)
    (hne : x ≠ loc) (hx : x ∈ s.enabledAttribs) :
    x ∈ (s.disableVertexAttribArray loc).enabledAttribs := by
  simp only [GLState.disableVertexAttribArray]
  split_ifs with h₁
  · exact hx
  · simp [List.mem_filter, hx, hne]

@[simp] theorem renderAttribStep_draws (p : Program) (k : Nat)
    (s : GLState) (a : String × InstanceAttribute) :
    (renderAttribStep p k s a).draws = s.draws := by
  simp [renderAttribStep]

@[simp] theorem renderAttribStep_enabled (p : Program) (k : Nat)
    (s : GLState) (a : String × InstanceAttribute) :
    (renderAttribStep p k s a).enabledAttribs =
      (s.enableVertexAttribArray (p.locs a.1)).enabledAttribs := by
  simp [renderAttribStep, Program.getAttribLocation]

theorem renderAttribLoop_draws (p : Program) (k : Nat)
    (attrs : List (String × InstanceAttribute)) (s : GLState) :
    (renderAttribLoop p k attrs s).draws = s.draws := by
  induction attrs generalizing s with
  | nil => rfl
  | cons a rest ih =>
    show (renderAttribLoop p k rest (renderAttribStep p k s a)).draws =
      s.draws
    rw [ih]
    simp

theorem renderAttribLoop_mem_of_mem (p : Program) (k : Nat)
    (attrs : List (String × InstanceAttribute)) (s : GLState) (x : Int)
    (h : x ∈ s.enabledAttribs) :
    x ∈ (renderAttribLoop p k attrs s).enabledAttribs := by
  induction attrs generalizing s with
  | nil => exact h
  | cons a rest ih =>
    show x ∈ (renderAttribLoop p k rest (renderAttribStep p k s a)).enabledAttribs
    refine ih _ ?_
    rw [renderAttribStep_enabled]
    exact mem_enable_of_mem s (p.locs a.1) x h

theorem renderAttribLoop_mem_attr (p : Program) (k : Nat)
    (attrs : List (String × InstanceAttribute)) (s : GLState)
    (a : String × InstanceAttribute) (ha : a ∈ attrs)
    (h0 : 0 ≤ p.locs a.1) :
    p.locs a.1 ∈ (renderAttribLoop p k attrs s).enabledAttribs := by
  induction attrs generalizing s with
  | nil => cases ha
  | cons b rest ih =>
    show p.locs a.1 ∈
      (renderAttribLoop p k rest (renderAttribStep p k s b)).enabledAttribs
    rcases List.mem_cons.1 ha with hab | harest
    · subst hab
      refine renderAttribLoop_mem_of_mem p k rest _ _ ?_
      rw [renderAttribStep_enabled]
      exact mem_enable_self s (p.locs a.1) h0
    · exact ih _ harest

/-- Amended C5: `Mesh.render` always issues exactly one instanced draw
call (`drawArraysInstanced` over the current instance count), whether or
not any instance attributes were declared; the class has no non-instanced
draw path. -/
theorem render_issues_instanced_draw (m : Mesh) (p : Program)
    (pn un : String) (s : GLState) :
    ((m.render p pn un s).2).draws = s.draws ++
      [DrawCmd.arraysInstanced GL_TRIANGLES 0 m.vertexCount
        m.instanceCount] := by
  simp [Mesh.render, GLState.drawArraysInstanced, renderAttribLoop_draws,
    GLState.bindArrayBuffer, GLState.useProgram, Program.use]

/-- Counterexample to C5 as stated: a mesh constructed with NO instance
attribute declarations still renders through `drawArraysInstanced` (with
the default instance count 0) — no non-instanced draw call is issued. -/
theorem render_no_attrs_still_instanced_counterexample :
    ((demoCreateNoInst.1.render demoProgram "aPosition" "aUv"
      demoCreateNoInst.2).2).draws =
      [DrawCmd.arraysInstanced GL_TRIANGLES 0 3 0] := by
  decide

/-- Amended C6: after `render` returns, the current program and the
array-buffer binding are cleared and the position and uv attributes are
disabled, but a per-instance attribute whose location differs from the
position and uv locations remains enabled — the loop's
`enableVertexAttribArray` calls have no matching disable. -/
theorem render_cleanup (m : Mesh) (p : Program) (pn un : String)
    (s : GLState) :
    ((m.render p pn un s).2).currentProgram = none ∧
    ((m.render p pn un s).2).boundArrayBuffer = none ∧
    (0 ≤ p.locs pn →
      p.locs pn ∉ ((m.render p pn un s).2).enabledAttribs) ∧
    (0 ≤ p.locs un →
      p.locs un ∉ ((m.render p pn un s).2).enabledAttribs) ∧
    (∀ a ∈ m.instanceAttributes, 0 ≤ p.locs a.1 →
      p.locs a.1 ≠ p.locs pn → p.locs a.1 ≠ p.locs un →
      p.locs a.1 ∈ ((m.render p pn un s).2).enabledAttribs) := by
  refine ⟨rfl, rfl, ?_, ?_, ?_⟩
  · intro h0
    simp only [Mesh.render, Program.getAttribLocation, enabled_useProgram,
      enabled_bindArrayBuffer]
    exact not_mem_disable_of_not_mem _ _ _ (not_mem_disable_self _ _ h0)
  · intro h0
    simp only [Mesh.render, Program.getAttribLocation, enabled_useProgram,
      enabled_bindArrayBuffer]
    exact not_mem_disable_self _ _ h0
  · intro a ha h0 hne1 hne2
    simp only [Mesh.render, Program.getAttribLocation, enabled_useProgram,
      enabled_bindArrayBuffer]
    refine mem_disable_of_mem_ne _ _ _ hne2 ?_
    refine mem_disable_of_mem_ne _ _ _ hne1 ?_
    simp only [enabled_draw_instanced, enabled_bindArrayBuffer]
    exact renderAttribLoop_mem_attr p m.instanceAttributeSize
      m.instanceAttributes _ a ha h0

/-- Witness for the amended C6 on the demo mesh: the position attribute
(location 0) is disabled after the call, while the per-instance attribute
`aOffset` (location 2) is still enabled. -/
theorem render_cleanup_witness :
    demoProgram.locs "aPosition" ∉
      ((demoCreateInst.1.render demoProgram "aPosition" "aUv"
        demoCreateInst.2).2).enabledAttribs ∧
    demoProgram.locs "aOffset" ∈
      ((demoCreateInst.1.render demoProgram "aPosition" "aUv"
        demoCreateInst.2).2).enabledAttribs := by
  constructor
  · exact (render_cleanup demoCreateInst.1 demoProgram "aPosition" "aUv"
      demoCreateInst.2).2.2.1 (by decide)
  · exact (render_cleanup demoCreateInst.1 demoProgram "aPosition" "aUv"
      demoCreateInst.2).2.2.2.2 ("aOffset", ⟨"aOffset", 2, 0⟩) (by decide)
      (by decide) (by decide) (by decide)

/-- Counterexample to C6 as stated: nothing was enabled before the call,
yet after `render` returns the two per-instance attribute locations 2
(`aOffset`) and 3 (`aColour`) are still enabled. -/
theorem render_leaves_instance_attribs_enabled_counterexample :
    demoCreateInst.2.enabledAttribs = [] ∧
    ((demoCreateInst.1.render demoProgram "aPosition" "aUv"
      demoCreateInst.2).2).enabledAttribs = [2, 3] := by
  decide

/-- C7: with zoom 1 and position (0, 0) over a w×h canvas (w, h nonzero),
both camera variants return the pure scaling matrix with diagonal
(h/w, 1, 1, 1) and zero translation, and neither mutates the camera. -/
theorem camera_zoom1_origin_pure_scaling (c : Camera) (hz : c.zoom = 1)
    (hp : c.position = (0, 0)) (hw : c.canvasWidth ≠ 0)
    (hh : c.canvasHeight ≠ 0) :
    c.getViewProjectionMatrix =
      (pureScalingMat (c.canvasHeight / c.canvasWidth), c) ∧
    c.getViewProjectionMatrixEx6 =
      (pureScalingMat (c.canvasHeight / c.canvasWidth), c) := by
  constructor
  · unfold Camera.getViewProjectionMatrix
    rw [hz, hp]
    refine Prod.ext ?_ rfl
    ext <;>
      simp [Mat4.multiply, Mat4.fromScaling, Mat4.fromTranslation,
        pureScalingMat]
    all_goals norm_num
    all_goals field_simp
    all_goals ring
  · unfold Camera.getViewProjectionMatrixEx6
    rw [hz, hp]
    refine Prod.ext ?_ rfl
    ext <;>
      simp [Mat4.multiply, Mat4.fromScaling, Mat4.fromTranslation,
        pureScalingMat]
    all_goals norm_num
    all_goals field_simp
    all_goals ring

/-- Witness for C7 on a 4×3 canvas: the matrix is the pure scaling by
3/4 in x, and the camera is returned unchanged. -/
theorem camera_zoom1_origin_pure_scaling_witness :
    demoCamera.getViewProjectionMatrix =
      (pureScalingMat (demoCamera.canvasHeight / demoCamera.canvasWidth),
        demoCamera) ∧
    demoCamera.getViewProjectionMatrixEx6 =
      (pureScalingMat (demoCamera.canvasHeight / demoCamera.canvasWidth),
        demoCamera) :=
  camera_zoom1_origin_pure_scaling demoCamera rfl rfl (by decide) (by decide)

theorem setSeq_eq (d : List ℚ) : ∀ (arr : List ℚ) (p : Nat),
    p + d.length ≤ arr.length →
    setSeq arr p d = arr.take p ++ d ++ arr.drop (p + d.length) := by
  induction d with
  | nil =>
    intro arr p h
    simp [setSeq, List.take_append_drop]
  | cons x xs ih =>
    intro arr p h
    have hp : p < arr.length := by
      simp at h; omega
    rw [setSeq]
    rw [ih (arr.set p x) (p + 1) (by simp at h ⊢; omega)]
    rw [List.set_eq_take_append_cons_drop, if_pos hp]
    have hlen : (List.take p arr).length = p := by
      rw [List.length_take]; omega
    have h1 : List.take (p + 1)
        (List.take p arr ++ x :: List.drop (p + 1) arr)
        = List.take p arr ++ [x] := by
      have : p + 1 = (List.take p arr).length + 1 := by omega
      rw [this, List.take_append]
      simp
    have h2 : List.drop (p + 1 + xs.length)
        (List.take p arr ++ x :: List.drop (p + 1) arr)
        = List.drop (p + (xs.length + 1)) arr := by
      rw [show p + 1 + xs.length =
        (List.take p arr).length + (1 + xs.length) by omega]
      rw [List.drop_append]
      rw [show (1 + xs.length) = xs.length + 1 by omega,
        List.drop_succ_cons, List.drop_drop]
      congr 1
      omega
    rw [h1, h2]
    simp [List.append_assoc]

theorem flattenVertexLoop_writes (v : Vertex) (i : Nat) (arr : List ℚ) :
    ((((arr.set (i * elementsPerVertex) v.position.1).set
        (i * elementsPerVertex + 1) v.position.2.1).set
        (i * elementsPerVertex + 2) v.position.2.2).set
        (i * elementsPerVertex + 3) v.uv.1).set
        (i * elementsPerVertex + 4) v.uv.2 =
      setSeq arr (i * 5)
        [v.position.1, v.position.2.1, v.position.2.2, v.uv.1, v.uv.2] :=
  rfl

theorem flattenVertexLoop_spec (vs : List Vertex) : ∀ (i : Nat)
    (arr : List ℚ), arr.length = (i + vs.length) * 5 →
    flattenVertexLoop vs i arr = arr.take (i * 5) ++ specInterleave vs := by
  induction vs with
  | nil =>
    intro i arr h
    simp only [List.length_nil, Nat.add_zero] at h
    rw [flattenVertexLoop, specInterleave]
    rw [List.append_nil, List.take_of_length_le (by omega)]
  | cons v rest ih =>
    intro i arr h
    simp only [List.length_cons] at h
    rw [flattenVertexLoop, flattenVertexLoop_writes]
    rw [setSeq_eq _ _ _ (by simp; omega)]
    rw [ih (i + 1) _ (by simp [List.length_take, List.length_drop]; omega)]
    have hlen : (List.take (i * 5) arr).length = i * 5 := by
      rw [List.length_take]; omega
    have h1 : List.take ((i + 1) * 5)
        (List.take (i * 5) arr ++
          [v.position.1, v.position.2.1, v.position.2.2, v.uv.1, v.uv.2] ++
          List.drop (i * 5 + 5) arr) =
        List.take (i * 5) arr ++
          [v.position.1, v.position.2.1, v.position.2.2, v.uv.1, v.uv.2] := by
      rw [List.append_assoc]
      rw [show (i + 1) * 5 = (List.take (i * 5) arr).length + 5 by omega]
      rw [List.take_append]
      simp
    simp only [List.length_cons, List.length_nil] at h1 ⊢
    rw [h1, specInterleave]
    simp [List.append_assoc]

theorem mkVertexData_eq_specInterleave (vs : List Vertex) :
    mkVertexData vs = specInterleave vs := by
  rw [mkVertexData]
  rw [flattenVertexLoop_spec vs 0 _ (by simp [elementsPerVertex,
    elementsPerPosition, elementsPerUV])]
  simp

theorem specInterleave_length (vs : List Vertex) :
    (specInterleave vs).length = 5 * vs.length := by
  induction vs with
  | nil => rfl
  | cons v rest ih => simp [specInterleave, ih]; omega

theorem specInterleave_slice (vs : List Vertex) : ∀ (i : Nat)
    (h : i < vs.length),
    ((specInterleave vs).drop (5 * i)).take 5 =
      [(vs.get ⟨i, h⟩).position.1, (vs.get ⟨i, h⟩).position.2.1,
       (vs.get ⟨i, h⟩).position.2.2, (vs.get ⟨i, h⟩).uv.1,
       (vs.get ⟨i, h⟩).uv.2] := by
  induction vs with
  | nil => intro i h; cases h
  | cons v rest ih =>
    intro i h
    cases i with
    | zero => simp [specInterleave]
    | succ j =>
      rw [specInterleave]
      rw [show 5 * (j + 1) = (5 * j) + 1 + 1 + 1 + 1 + 1 by omega]
      simp only [List.drop_succ_cons]
      have hj : j < rest.length := by simp at h; omega
      rw [ih j hj]
      rfl

/-- C1: the `Mesh` constructor uploads to the vertex buffer a flat float
array of length `5 * n` in which vertex `i` (in insertion order) occupies
slots `5i .. 5i+4` in the order x, y, z, u, v. -/
theorem mesh_vertex_packing (s : GLState) (vertices : List Vertex)
    (defs : List InstanceAttributeDefinition) :
    ((Mesh.create s vertices defs).2).bufferContents
        (Mesh.create s vertices defs).1.buffer = mkVertexData vertices ∧
    (mkVertexData vertices).length = 5 * vertices.length ∧
    (∀ i (h : i < vertices.length),
      ((mkVertexData vertices).drop (5 * i)).take 5 =
        [(vertices.get ⟨i, h⟩).position.1,
         (vertices.get ⟨i, h⟩).position.2.1,
         (vertices.get ⟨i, h⟩).position.2.2,
         (vertices.get ⟨i, h⟩).uv.1,
         (vertices.get ⟨i, h⟩).uv.2]) := by
  refine ⟨?_, ?_, ?_⟩
  · simp [Mesh.create, GLState.createBuffer, GLState.bindArrayBuffer,
      GLState.bufferData]
  · rw [mkVertexData_eq_specInterleave, specInterleave_length]
  · intro i h
    rw [mkVertexData_eq_specInterleave]
    exact specInterleave_slice vertices i h

/-- Witness for C1: the 3-vertex demo mesh yields a 15-element array, and
vertex 1 occupies slots 5..9 with its x, y, z, u, v. -/
theorem mesh_vertex_packing_witness :
    (mkVertexData demoVertices).length = 15 ∧
    ((mkVertexData demoVertices).drop 5).take 5 =
      [-1/2, -1/2, 0, 0, 1] := by
  have h := mesh_vertex_packing initialGL demoVertices []
  constructor
  · rw [h.2.1]; decide
  · have h₂ := h.2.2 1 (by decide)
    simpa [demoVertices] using h₂

theorem mapGet_mapSet (m : List (String × InstanceAttribute)) (k : String)
    (v : InstanceAttribute) (x : String) :
    mapGet (mapSet m k v) x = if k = x then some v else mapGet m x := by
  induction m with
  | nil => simp [mapSet, mapGet]
  | cons hd tl ih =>
    obtain ⟨k₁, v₁⟩ := hd
    by_cases h₁ : k₁ = k
    · subst h₁
      by_cases h₂ : k₁ = x <;> simp [mapSet, mapGet, h₂]
    · by_cases h₂ : k₁ = x
      · subst h₂
        have : ¬(k = k₁) := fun hk => h₁ hk.symm
        simp [mapSet, mapGet, h₁, this]
      · simp [mapSet, mapGet, h₁, h₂, ih]

theorem mapSet_of_not_mem (m : List (String × InstanceAttribute))
    (k : String) (v : InstanceAttribute) (h : mapGet m k = none) :
    mapSet m k v = m ++ [(k, v)] := by
  induction m with
  | nil => rfl
  | cons hd tl ih =>
    obtain ⟨k₁, v₁⟩ := hd
    by_cases h₁ : k₁ = k
    · simp [mapGet, h₁] at h
    · simp only [mapGet, h₁, if_neg] at h
      simp [mapSet, h₁, ih h]

theorem mapGet_append_of_none (m₁ m₂ : List (String × InstanceAttribute))
    (k : String) (h : mapGet m₁ k = none) :
    mapGet (m₁ ++ m₂) k = mapGet m₂ k := by
  induction m₁ with
  | nil => rfl
  | cons hd tl ih =>
    obtain ⟨k₁, v₁⟩ := hd
    by_cases h₁ : k₁ = k
    · simp [mapGet, h₁] at h
    · simp only [mapGet, h₁, if_neg] at h
      simp [mapGet, h₁, ih h]

theorem mapGet_layoutAux_none : ∀ (defs : List InstanceAttributeDefinition)
    (m : List (String × InstanceAttribute)) (o t : Nat) (x : String),
    (mapGet (layoutAux defs m o t).1 x = none ↔
      mapGet m x = none ∧ x ∉ defNames defs) := by
  intro defs
  induction defs with
  | nil =>
    intro m o t x
    simp [layoutAux, defNames]
  | cons d rest ih =>
    intro m o t x
    rw [layoutAux]
    rw [ih]
    rw [mapGet_mapSet]
    constructor
    · rintro ⟨h₁, h₂⟩
      by_cases hdx : d.name = x
      · simp [hdx] at h₁
      · simp only [hdx, if_neg] at h₁
        refine ⟨h₁, ?_⟩
        simp [defNames]
        simp [defNames] at h₂
        exact ⟨fun hx => hdx hx.symm, h₂⟩
    · rintro ⟨h₁, h₂⟩
      simp [defNames] at h₂
      refine ⟨?_, ?_⟩
      · rw [if_neg (fun hx => h₂.1 hx.symm)]
        exact h₁
      · simp [defNames]
        exact h₂.2

theorem layoutAux_spec : ∀ (defs : List InstanceAttributeDefinition)
    (m : List (String × InstanceAttribute)) (o t : Nat),
    (∀ d ∈ defs, mapGet m d.name = none) → (defNames defs).Nodup →
    layoutAux defs m o t =
      (m ++ specLayout o defs, o + (defs.map (fun d => d.size)).sum,
        t + (defs.map (fun d => d.size)).sum) := by
  intro defs
  induction defs with
  | nil =>
    intro m o t h hnd
    simp [layoutAux, specLayout]
  | cons d rest ih =>
    intro m o t h hnd
    have hhd : mapGet m d.name = none := h d (by simp)
    have hndrest : (defNames rest).Nodup := by
      simp [defNames] at hnd ⊢
      exact hnd.2
    have hdnotin : d.name ∉ (defNames rest) := by
      simp [defNames] at hnd ⊢
      intro d' hd' hcon
      exact (hnd.1 d' hd' hcon).elim
    have hmem : ∀ d' ∈ rest,
        mapGet (m ++ [(d.name, ⟨d.name, d.size, o⟩)]) d'.name = none := by
      intro d' hd'
      rw [mapGet_append_of_none _ _ _ (h d' (List.mem_cons_of_mem d hd'))]
      have : ¬(d.name = d'.name) := by
        intro hcon
        exact hdnotin (by simp [defNames]; exact ⟨d', hd', hcon.symm⟩)
      simp [mapGet, this]
    rw [layoutAux]
    rw [mapSet_of_not_mem _ _ _ hhd]
    rw [ih _ _ _ hmem hndrest]
    rw [specLayout]
    simp [List.append_assoc, Nat.add_assoc]

theorem specLayout_get : ∀ (defs : List InstanceAttributeDefinition)
    (o k : Nat) (h : k < defs.length), (defNames defs).Nodup →
    mapGet (specLayout o defs) (defs.get ⟨k, h⟩).name =
      some ⟨(defs.get ⟨k, h⟩).name, (defs.get ⟨k, h⟩).size,
        o + (((defs.take k).map (fun d => d.size)).sum)⟩ := by
  intro defs
  induction defs with
  | nil =>
    intro o k h
    cases h
  | cons d rest ih =>
    intro o k h hnd
    cases k with
    | zero => simp [specLayout, mapGet]
    | succ j =>
      have hj : j < rest.length := by
        simp at h; omega
      have hgets : ((d :: rest).get ⟨j + 1, h⟩) = rest.get ⟨j, hj⟩ := rfl
      have hmemname : (rest.get ⟨j, hj⟩).name ∈ defNames rest := by
        simp [defNames]
        exact ⟨rest.get ⟨j, hj⟩, List.get_mem rest j hj, rfl⟩
      have hne : ¬(d.name = (rest.get ⟨j, hj⟩).name) := by
        intro hcon
        simp [defNames] at hnd
        exact (hnd.1 (rest.get ⟨j, hj⟩) (List.get_mem rest j hj) hcon.symm).elim
      have hndrest : (defNames rest).Nodup := by
        simp [defNames] at hnd ⊢
        exact hnd.2
      rw [specLayout]
      rw [hgets]
      simp only [mapGet, hne, if_neg]
      rw [ih (o + d.size) j hj hndrest]
      congr 1
      simp [Nat.add_assoc]

/-- C2: the instance-attribute layout computed by the constructor assigns
the k-th declared attribute (distinct names) the offset equal to the sum
of the sizes declared before it, the total per-instance size is the sum
of all declared sizes, and neither `setInstanceCount`,
`setInstanceProperty` nor `render` changes the layout or the total. -/
theorem mesh_layout_additive_and_stable (s : GLState)
    (vertices : List Vertex) (defs : List InstanceAttributeDefinition)
    (hnd : (defNames defs).Nodup) :
    (∀ k (h : k < defs.length),
      mapGet ((Mesh.create s vertices defs).1.instanceAttributes)
          (defs.get ⟨k, h⟩).name =
        some ⟨(defs.get ⟨k, h⟩).name, (defs.get ⟨k, h⟩).size,
          (((defs.take k).map (fun d => d.size)).sum)⟩) ∧
    (Mesh.create s vertices defs).1.instanceAttributeSize =
      (defs.map (fun d => d.size)).sum ∧
    (∀ n s₁,
      (((Mesh.create s vertices defs).1.setInstanceCount n
        s₁).1.instanceAttributes =
          (Mesh.create s vertices defs).1.instanceAttributes ∧
      ((Mesh.create s vertices defs).1.setInstanceCount n
        s₁).1.instanceAttributeSize =
          (Mesh.create s vertices defs).1.instanceAttributeSize)) ∧
    (∀ index name data s₁ m₂ s₂,
      (Mesh.create s vertices defs).1.setInstanceProperty index name data
        s₁ = Except.ok (m₂, s₂) →
      m₂.instanceAttributes =
        (Mesh.create s vertices defs).1.instanceAttributes ∧
      m₂.instanceAttributeSize =
        (Mesh.create s vertices defs).1.instanceAttributeSize) ∧
    (∀ p pn un s₁,
      ((Mesh.create s vertices defs).1.render p pn un s₁).1 =
        (Mesh.create s vertices defs).1) := by
  have hL := layoutAux_spec defs [] 0 0 (fun d _ => rfl) hnd
  refine ⟨?_, ?_, ?_, ?_, ?_⟩
  · intro k h
    show mapGet (layoutAux defs [] 0 0).1 (defs.get ⟨k, h⟩).name = _
    rw [hL]
    simp only [List.nil_append]
    have := specLayout_get defs 0 k h hnd
    simpa using this
  · show (layoutAux defs [] 0 0).2.2 = _
    rw [hL]
    simp
  · intro n s₁
    exact ⟨rfl, rfl⟩
  · intro index name data s₁ m₂ s₂ heq
    rw [Mesh.setInstanceProperty] at heq
    cases hm : mapGet
        ((Mesh.create s vertices defs).1.instanceAttributes) name with
    | none => rw [hm] at heq; cases heq
    | some att =>
      rw [hm] at heq
      cases heq
      exact ⟨rfl, rfl⟩
  · intro p pn un s₁
    rfl

/-- Witness for C2: with the demo declarations (aOffset: 2 floats,
aColour: 3 floats) the second attribute gets offset 2 and the total
per-instance size is 5. -/
theorem mesh_layout_additive_witness :
    mapGet ((Mesh.create initialGL demoVertices
        demoDefs).1.instanceAttributes) "aColour" =
      some ⟨"aColour", 3, 2⟩ ∧
    (Mesh.create initialGL demoVertices demoDefs).1.instanceAttributeSize =
      5 := by
  have h := mesh_layout_additive_and_stable initialGL demoVertices demoDefs
    (by decide)
  constructor
  · have h₁ := h.1 1 (by decide)
    simpa [demoDefs] using h₁
  · have h₂ := h.2.1
    simpa [demoDefs] using h₂

theorem writeFloats_length (l : List ℚ) (p : Nat) (d : List ℚ)
    (h : p + d.length ≤ l.length) :
    (writeFloats l p d).length = l.length := by
  rw [writeFloats, if_pos h]
  simp [List.length_append, List.length_take, List.length_drop]
  omega

theorem writeFloats_getElem_lt (l : List ℚ) (p : Nat) (d : List ℚ)
    (h : p + d.length ≤ l.length) (j : Nat) (hj : j < p) :
    (writeFloats l p d)[j]? = l[j]? := by
  rw [writeFloats, if_pos h]
  rw [List.getElem?_append_left
      (by simp [List.length_append, List.length_take]; omega),
    List.getElem?_append_left (by rw [List.length_take]; omega),
    List.getElem?_take, if_pos hj]

theorem writeFloats_getElem_mid (l : List ℚ) (p : Nat) (d : List ℚ)
    (h : p + d.length ≤ l.length) (j : Nat) (hj : j < d.length) :
    (writeFloats l p d)[p + j]? = d[j]? := by
  rw [writeFloats, if_pos h]
  rw [List.getElem?_append_left
      (by simp [List.length_append, List.length_take]; omega),
    List.getElem?_append_right (by rw [List.length_take]; omega)]
  have : p + j - (List.take p l).length = j := by
    rw [List.length_take]; omega
  rw [this]

theorem writeFloats_getElem_ge (l : List ℚ) (p : Nat) (d : List ℚ)
    (h : p + d.length ≤ l.length) (j : Nat) (hj : p + d.length ≤ j) :
    (writeFloats l p d)[j]? = l[j]? := by
  rw [writeFloats, if_pos h]
  rw [List.getElem?_append_right
    (by simp [List.length_append, List.length_take]; omega)]
  rw [List.getElem?_drop]
  congr 1
  simp [List.length_append, List.length_take]
  omega

theorem byteOffset_div (p : Nat) :
    (p * BYTES_PER_ELEMENT) / BYTES_PER_ELEMENT = p :=
  Nat.mul_div_cancel p (by norm_num [BYTES_PER_ELEMENT])

theorem setInstanceProperty_ok_contents (m : Mesh) (index : Nat)
    (name : String) (data : List ℚ) (s : GLState)
    (att : InstanceAttribute)
    (hatt : mapGet m.instanceAttributes name = some att) (m₁ : Mesh)
    (s₁ : GLState)
    (heq : m.setInstanceProperty index name data s = Except.ok (m₁, s₁)) :
    m₁ = m ∧
    s₁.bufferContents m.instanceBuffer =
      writeFloats (s.bufferContents m.instanceBuffer)
        (index * m.instanceAttributeSize + att.offset) data := by
  rw [Mesh.setInstanceProperty, hatt] at heq
  cases heq
  refine ⟨rfl, ?_⟩
  simp [GLState.bindArrayBuffer, GLState.bufferSubData, byteOffset_div]

/-- C3: on a constructed mesh, `setInstanceProperty(index, name, data)`
throws exactly when `name` was not declared at construction (with the
`Attribute not found` message); for a declared name it returns the mesh
unchanged (count and layout intact) and overwrites precisely the
`data.length` floats of the instance buffer starting at float position
`index * instanceAttributeSize + offset(name)` — byte offset
`(index * instanceAttributeSize + offset(name)) * 4`. -/
theorem setInstanceProperty_guard_and_write (s₀ : GLState)
    (vertices : List Vertex) (defs : List InstanceAttributeDefinition)
    (m : Mesh) (hm : m = (Mesh.create s₀ vertices defs).1) (index : Nat)
    (name : String) (data : List ℚ) (s : GLState) :
    ((m.setInstanceProperty index name data s).isOk = false ↔
      name ∉ defNames defs) ∧
    (name ∉ defNames defs →
      m.setInstanceProperty index name data s =
        Except.error ("Attribute " ++ name ++ " not found")) ∧
    (∀ att, mapGet m.instanceAttributes name = some att →
      ∀ m₁ s₁,
        m.setInstanceProperty index name data s = Except.ok (m₁, s₁) →
        m₁ = m ∧
        (index * m.instanceAttributeSize + att.offset + data.length ≤
            (s.bufferContents m.instanceBuffer).length →
          (s₁.bufferContents m.instanceBuffer).length =
            (s.bufferContents m.instanceBuffer).length ∧
          (∀ j, j < data.length →
            (s₁.bufferContents m.instanceBuffer)[index *
              m.instanceAttributeSize + att.offset + j]? = data[j]?) ∧
          (∀ j, j < index * m.instanceAttributeSize + att.offset →
            (s₁.bufferContents m.instanceBuffer)[j]? =
              (s.bufferContents m.instanceBuffer)[j]?) ∧
          (∀ j, index * m.instanceAttributeSize + att.offset +
              data.length ≤ j →
            (s₁.bufferContents m.instanceBuffer)[j]? =
              (s.bufferContents m.instanceBuffer)[j]?))) := by
  have hiff : (mapGet m.instanceAttributes name = none) ↔
      name ∉ defNames defs := by
    subst hm
    show (mapGet (layoutAux defs [] 0 0).1 name = none) ↔ _
    have h0 := mapGet_layoutAux_none defs [] 0 0 name
    simpa [mapGet] using h0
  refine ⟨?_, ?_, ?_⟩
  · cases hv : mapGet m.instanceAttributes name with
    | none =>
      rw [Mesh.setInstanceProperty, hv]
      exact ⟨fun _ => hiff.1 hv, fun _ => rfl⟩
    | some att =>
      rw [Mesh.setInstanceProperty, hv]
      constructor
      · intro hfalse
        exact nomatch hfalse
      · intro hcon
        exact nomatch ((hiff.2 hcon).symm.trans hv)
  · intro hnot
    rw [Mesh.setInstanceProperty, hiff.2 hnot]
  · intro att hatt m₁ s₁ heq
    obtain ⟨hm₁, hcont⟩ := setInstanceProperty_ok_contents m index name
      data s att hatt m₁ s₁ heq
    refine ⟨hm₁, ?_⟩
    intro hfits
    rw [hcont]
    exact ⟨writeFloats_length _ _ _ hfits,
      fun j hj => writeFloats_getElem_mid _ _ _ hfits j hj,
      fun j hj => writeFloats_getElem_lt _ _ _ hfits j hj,
      fun j hj => writeFloats_getElem_ge _ _ _ hfits j hj⟩

/-- Witness for C3: on the demo mesh, setting the undeclared name `bogus`
throws with the `not found` message, while setting the declared
`aColour` (offset 2) writes its value at float slot 2 of instance 0. -/
theorem setInstanceProperty_guard_witness :
    ((Mesh.create initialGL demoVertices demoDefs).1.setInstanceProperty 0
      "bogus" [1] demoState2).isOk = false ∧
    (Mesh.create initialGL demoVertices demoDefs).1.setInstanceProperty 0
      "bogus" [1] demoState2 =
      Except.error ("Attribute " ++ "bogus" ++ " not found") ∧
    (okBufferAt ((Mesh.create initialGL demoVertices
      demoDefs).1.setInstanceProperty 0 "aColour" [9] demoState2)
      (Mesh.create initialGL demoVertices demoDefs).1.instanceBuffer)[2]? =
      some 9 := by
  have h := setInstanceProperty_guard_and_write initialGL demoVertices
    demoDefs (Mesh.create initialGL demoVertices demoDefs).1 rfl 0 "bogus"
    [1] demoState2
  have h' := setInstanceProperty_guard_and_write initialGL demoVertices
    demoDefs (Mesh.create initialGL demoVertices demoDefs).1 rfl 0
    "aColour" [9] demoState2
  refine ⟨h.1.mpr (by decide), h.2.1 (by decide), ?_⟩
  cases heq : (Mesh.create initialGL demoVertices
      demoDefs).1.setInstanceProperty 0 "aColour" [9] demoState2 with
  | error e =>
    have hcon := h'.1.mp (by rw [heq]; rfl)
    exact absurd hcon (by decide)
  | ok pr =>
    obtain ⟨m₁, s₁⟩ := pr
    have h₂ := h'.2.2 ⟨"aColour", 3, 2⟩ (by decide) m₁ s₁ heq
    have h₃ := (h₂.2 (by decide)).2.1 0 (by decide)
    simpa [okBufferAt] using h₃

/-- C10: `setInstanceProperty` never compares `data.length` with the
attribute's declared size: for a declared name it succeeds for data of
any length and writes all `data.length` floats from the attribute's
offset, so entries past the declared size land in the following
attribute's (or instance's) slots. -/
theorem setInstanceProperty_no_length_check (m : Mesh) (index : Nat)
    (name : String) (data : List ℚ) (s : GLState)
    (att : InstanceAttribute)
    (hatt : mapGet m.instanceAttributes name = some att)
    (hfits : index * m.instanceAttributeSize + att.offset + data.length ≤
      (s.bufferContents m.instanceBuffer).length) :
    (m.setInstanceProperty index name data s).isOk = true ∧
    ∀ m₁ s₁,
      m.setInstanceProperty index name data s = Except.ok (m₁, s₁) →
      ∀ j, att.size ≤ j → j < data.length →
        (s₁.bufferContents m.instanceBuffer)[index *
          m.instanceAttributeSize + att.offset + j]? = data[j]? := by
  constructor
  · rw [Mesh.setInstanceProperty, hatt]
    rfl
  · intro m₁ s₁ heq j hjs hjd
    obtain ⟨hm₁, hcont⟩ := setInstanceProperty_ok_contents m index name
      data s att hatt m₁ s₁ heq
    rw [hcont]
    exact writeFloats_getElem_mid _ _ _ hfits j hjd

/-- Witness for C10: `aOffset` is declared with size 2, yet writing 4
floats succeeds, and the third float (9, 8, **7**, 6) lands in slot 2 —
the first slot of the neighbouring `aColour` attribute. -/
theorem setInstanceProperty_no_length_check_witness :
    (demoCreateInst.1.setInstanceProperty 0 "aOffset" [9, 8, 7, 6]
      demoState2).isOk = true ∧
    (okBufferAt (demoCreateInst.1.setInstanceProperty 0 "aOffset"
      [9, 8, 7, 6] demoState2) demoCreateInst.1.instanceBuffer)[2]? =
      some 7 := by
  have h := setInstanceProperty_no_length_check demoCreateInst.1 0
    "aOffset" [9, 8, 7, 6] demoState2 ⟨"aOffset", 2, 0⟩ (by decide)
    (by decide)
  refine ⟨h.1, ?_⟩
  cases heq : demoCreateInst.1.setInstanceProperty 0 "aOffset"
      [9, 8, 7, 6] demoState2 with
  | error e =>
    rw [heq] at h
    exact nomatch h.1
  | ok pr =>
    obtain ⟨m₁, s₁⟩ := pr
    have h₂ := h.2 m₁ s₁ heq 2 (by decide) (by decide)
    simpa [okBufferAt] using h₂

end Webgl
